import Mathlib

/-!
Verification of the population-exposure analysis engine
(src/population_analysis.py) and the compliance evaluation embedded in the
report generator (src/pdf_generator.py).

The embedding is a shallow one.  Geometry is abstracted behind a type
parameter `G` together with an environment `GeoEnv G` supplying the
geometric primitives the Python code obtains from shapely / geopandas:
an exact intersection test, axis-aligned bounds (the spatial index works
on bounding boxes), the area of a geometry after reprojection to the
fixed equal-area system ALBERS_BR, the geometric difference, and the
union of a list of geometries.  The environment also carries the data
returned by external providers: the 500 km quadrant index
(`carregar_indice_quadrantes`) and the per-quadrant population tiles
(the download performed by `carregar_grid_ibge`).  Downloading and
on-disk extraction are out of scope of the core (spec section 1); a
provider failure is modelled as `none`.

Numbers are rationals: the Python floats are used here only through
field arithmetic and comparisons, and every concrete instance evaluated
below stays well inside exact-arithmetic range.

A concrete instantiation of the geometry parameter (finite unions of
axis-aligned boxes) is provided at the end, and is used by the
witnesses and counterexamples.
-/

namespace PopAssess

/-- Axis-aligned bounding box, the value of `geometry.bounds` used by the
per-tile spatial index query in `processar_todas_grades`. -/
structure Box where
  xmin : ℚ
  ymin : ℚ
  xmax : ℚ
  ymax : ℚ
deriving DecidableEq

/-- Bounding boxes overlap (closed-interval test on both axes).  This is
the predicate answered by `grid.sindex.intersection(bounds)`. -/
def Box.overlap (a b : Box) : Bool :=
  decide (a.xmin ≤ b.xmax) && decide (b.xmin ≤ a.xmax) &&
  decide (a.ymin ≤ b.ymax) && decide (b.ymin ≤ a.ymax)

/-- One row of an IBGE statistical-grid shapefile: its geometry and the
TOTAL population attribute. -/
structure GridCell (G : Type) where
  geom : G
  total : ℚ
deriving DecidableEq

/-- State of the module-level `_GRID_CACHE` dictionary: an association
list from grade identifier to the loaded tile rows. -/
abbrev GridCache (G : Type) := List (Nat × List (GridCell G))

/-- One row of the dataframe handed to `calcular_estatisticas` by
`processar_todas_grades`: the TOTAL column, the reprojected geometry
area in square metres, and the derived densidade_pop_km2 column. -/
structure StatCell where
  total : ℚ
  area_m2 : ℚ
  densidade_pop_km2 : ℚ
deriving DecidableEq

/-- The statistics dictionary returned by `processar_todas_grades`. -/
structure Stats where
  total_pessoas : ℚ
  area_km2 : ℚ
  densidade_media : ℚ
  densidade_maxima : ℚ
deriving DecidableEq

/-- One named feature of the input KML document, as read by
`extrair_layers_kml`: its Name attribute, its geometry type string, and
its geometry. -/
structure KMLFeature (G : Type) where
  name : String
  geom_type : String
  geom : G
deriving DecidableEq

/-- Environment of geometric primitives and external data providers.
The fields `intersects`, `bounds`, `projArea`, `difference` and
`union_all` stand for the shapely operations `.intersects`, `.bounds`,
`.to_crs(ALBERS_BR).area`, `.difference` and `union_all()`; `quadrants`
is the loaded 500 km index with the numeric QUADRANTE identifier of each
macro cell (`none` when the index download fails), and `tiles` is the
tile provider backing `carregar_grid_ibge` (`none` on download failure). -/
structure GeoEnv (G : Type) where
  intersects : G → G → Bool
  bounds : G → Box
  projArea : G → ℚ
  difference : G → G → G
  union_all : List G → G
  quadrants : Option (List (Nat × G))
  tiles : Nat → Option (List (GridCell G))

/-- Outcome of one `analyze_population` run: the `return None` taken when
no valid layer was extracted, an uncaught KeyError raised by a direct
dictionary subscript, or normal completion with the results dictionary. -/
inductive RunOutcome where
  | noLayers : RunOutcome
  | keyError : String → RunOutcome
  | ok : List (String × Stats) → RunOutcome
deriving DecidableEq

/-- Embedding of `identificar_grades_relevantes` (population_analysis.py
lines 92 to 115): when the quadrant index is unavailable return the
empty list, otherwise keep the macro cells intersecting the area and
return the sorted deduplicated list of their QUADRANTE identifiers.
The label parsing `int(g.replace("ID_", ""))` is injective on the data,
so identifiers are modelled as the numbers themselves. -/
def identificar_grades_relevantes {G : Type} (env : GeoEnv G) (area_geom : G) :
    List Nat :=
  match env.quadrants with
  | none => []
  | some quadrant_index =>
    let intersecting := quadrant_index.filter (fun q => env.intersects q.2 area_geom)
    if intersecting.isEmpty then []
    else ((intersecting.map Prod.fst).dedup).mergeSort (· ≤ ·)

/-- Embedding of `carregar_grid_ibge` (population_analysis.py lines 118
to 150).  Returns the pair the Python function returns, the new cache
state, and the number of provider requests issued (0 or 1); the
on-disk shapefile store is part of the excluded shell, so the download
plus read is folded into one provider call. -/
def carregar_grid_ibge {G : Type} (env : GeoEnv G) (cache : GridCache G)
    (grade_id : Nat) (use_cache : Bool) :
    (Option (List (GridCell G)) × Nat) × GridCache G × Nat :=
  match (if use_cache then List.lookup grade_id cache else none) with
  | some dados => ((some dados, grade_id), cache, 0)
  | none =>
    match env.tiles grade_id with
    | none => ((none, grade_id), cache, 1)
    | some dados =>
      ((some dados, grade_id),
        (if use_cache then (grade_id, dados) :: cache else cache), 1)

/-- The two-stage cell filter of `processar_todas_grades` (lines 267 to
274): shortlist the cells whose bounding box overlaps the polygon
bounds (the `sindex.intersection` query, with the `continue` taken when
the shortlist is empty), then keep the cells whose geometry actually
intersects the polygon. -/
def filtrar_celulas {G : Type} (env : GeoEnv G) (grid : List (GridCell G))
    (area_geom : G) : List (GridCell G) :=
  let possible_matches :=
    grid.filter (fun c => (env.bounds c.geom).overlap (env.bounds area_geom))
  if possible_matches.isEmpty then []
  else possible_matches.filter (fun c => env.intersects c.geom area_geom)

/-- The collection loop of `processar_todas_grades` (lines 259 to 281):
load each relevant grade through the cache, skip failed loads, filter
each loaded tile, and append the non-empty filtered frames to
`todos_dados`.  The cache state is threaded through the loop. -/
def coletar_dados {G : Type} (env : GeoEnv G) (area_geom : G) :
    List Nat → GridCache G → List (List (GridCell G)) × GridCache G
  | [], cache => ([], cache)
  | grade_id :: rest, cache =>
    let r := carregar_grid_ibge env cache grade_id true
    match r.1.1 with
    | none => coletar_dados env area_geom rest r.2.1
    | some grid =>
      let dados_filtrados := filtrar_celulas env grid area_geom
      let t := coletar_dados env area_geom rest r.2.1
      if dados_filtrados.isEmpty then t
      else (dados_filtrados :: t.1, t.2)

/-- Maximum of a list of rationals, `Series.max()` on the densidade
column; the empty case is never reached by the callers. -/
def listMax : List ℚ → ℚ
  | [] => 0
  | x :: xs => xs.foldl max x

/-- Embedding of `calcular_estatisticas` (population_analysis.py lines
210 to 237).  The optional `area_geom` mirrors the optional argument:
when present the area is the polygon reprojected to ALBERS_BR divided
by 1e6, otherwise the sum of the reprojected cell areas divided by 1e6. -/
def calcular_estatisticas {G : Type} (env : GeoEnv G)
    (dados_intersec : List StatCell) (area_geom : Option G) : ℚ × ℚ × ℚ × ℚ :=
  if dados_intersec.isEmpty then (0, 0, 0, 0)
  else
    let total_pessoas := (dados_intersec.map StatCell.total).sum
    let area_km2 :=
      match area_geom with
      | some g => env.projArea g / 1000000
      | none => (dados_intersec.map StatCell.area_m2).sum / 1000000
    let densidade_media := if area_km2 > 0 then total_pessoas / area_km2 else 0
    let densidade_maxima := listMax (dados_intersec.map StatCell.densidade_pop_km2)
    (total_pessoas, area_km2, densidade_media, densidade_maxima)

/-- The column computation of lines 292 to 295: reproject the combined
cells to ALBERS_BR and derive area_km2 and densidade_pop_km2 per cell. -/
def dados_area_cells {G : Type} (env : GeoEnv G)
    (dados_combinados : List (GridCell G)) : List StatCell :=
  dados_combinados.map (fun c =>
    { total := c.total
      area_m2 := env.projArea c.geom
      densidade_pop_km2 := c.total / (env.projArea c.geom / 1000000) })

/-- Combined cell collection produced by one call of
`processar_todas_grades` from a given cache state: the concatenation of
the non-empty filtered frames of the relevant grades. -/
def dadosCombinados {G : Type} (env : GeoEnv G) (cache : GridCache G)
    (area_geom : G) : List (GridCell G) :=
  ((coletar_dados env area_geom (identificar_grades_relevantes env area_geom)
      cache).1).flatten

/-- The tile obtained for one grade identifier from a given cache state
(the first component of the pair `carregar_grid_ibge` returns). -/
def tileData {G : Type} (env : GeoEnv G) (cache : GridCache G) (grade_id : Nat) :
    Option (List (GridCell G)) :=
  ((carregar_grid_ibge env cache grade_id true).1).1

/-- Embedding of `processar_todas_grades` (population_analysis.py lines
240 to 402), restricted to its analysis content; the rendering calls
(plotting, basemap, text box, file output) do not touch the returned
statistics.  Returns `none` exactly where the Python function executes
`return None`, together with the final cache state. -/
def processar_todas_grades {G : Type} (env : GeoEnv G) (cache : GridCache G)
    (area_geom : G) : Option Stats × GridCache G :=
  let grades_relevantes := identificar_grades_relevantes env area_geom
  if grades_relevantes.isEmpty then (none, cache)
  else
    let r := coletar_dados env area_geom grades_relevantes cache
    if r.1.isEmpty then (none, r.2)
    else
      let dados_combinados := r.1.flatten
      let dados_area := dados_area_cells env dados_combinados
      let e := calcular_estatisticas env dados_area (some area_geom)
      (some { total_pessoas := e.1, area_km2 := e.2.1,
              densidade_media := e.2.2.1, densidade_maxima := e.2.2.2 }, r.2)

/-- Embedding of `extrair_layers_kml` (population_analysis.py lines 38
to 57): for each requested name, select the features with that Name,
drop non-polygonal ones, skip the name when nothing remains, and store
the union of the surviving geometries. -/
def extrair_layers_kml {G : Type} (env : GeoEnv G) (doc : List (KMLFeature G))
    (layer_names : List String) : List (String × G) :=
  layer_names.foldl (fun acc nm =>
    let sel := doc.filter (fun f => f.name == nm)
    if sel.isEmpty then acc
    else
      let sel2 := sel.filter (fun f =>
        f.geom_type == "Polygon" || f.geom_type == "MultiPolygon")
      if sel2.isEmpty then acc
      else acc ++ [(nm, env.union_all (sel2.map KMLFeature.geom))]) []

/-- The four safety-margin layer names requested by `analyze_population`. -/
def layers_kml : List String :=
  ["Flight Geography", "Contingency Volume", "Ground Risk Buffer", "Adjacent Area"]

/-- Embedding of `analyze_population` (population_analysis.py lines 405
to 475).  The two direct dictionary subscripts
`layers_poligonos[...]` on Flight Geography and Ground Risk Buffer
surface as `keyError` outcomes when the key is absent; the Adjacent
Area block is guarded by an explicit membership test and analyzes the
difference of the Adjacent Area and Ground Risk Buffer polygons. -/
def analyze_population {G : Type} (env : GeoEnv G) (cache : GridCache G)
    (doc : List (KMLFeature G)) : RunOutcome × GridCache G :=
  let layers_poligonos := extrair_layers_kml env doc layers_kml
  if layers_poligonos.isEmpty then (RunOutcome.noLayers, cache)
  else
    match List.lookup "Flight Geography" layers_poligonos with
    | none => (RunOutcome.keyError "Flight Geography", cache)
    | some fg =>
      let r1 := processar_todas_grades env cache fg
      let results0 : List (String × Stats) :=
        match r1.1 with
        | some s => [("Flight Geography", s)]
        | none => []
      match List.lookup "Ground Risk Buffer" layers_poligonos with
      | none => (RunOutcome.keyError "Ground Risk Buffer", r1.2)
      | some grb =>
        let r2 := processar_todas_grades env r1.2 grb
        let results1 :=
          match r2.1 with
          | some s => results0 ++ [("Ground Risk Buffer", s)]
          | none => results0
        match List.lookup "Adjacent Area" layers_poligonos with
        | some adj =>
          let area_anel := env.difference adj grb
          let r3 := processar_todas_grades env r2.2 area_anel
          let results2 :=
            match r3.1 with
            | some s => results1 ++ [("Adjacent Area", s)]
            | none => results1
          (RunOutcome.ok results2, r3.2)
        | none => (RunOutcome.ok results1, r2.2)

/-- Compliance status of one layer, the three-way coloring used by the
summary table of `generate_pdf_report`. -/
inductive Status where
  | conforme : Status
  | atencao : Status
  | naoConforme : Status
deriving DecidableEq

/-- The densidade_maxima rule applied to Flight Geography and Ground
Risk Buffer in `generate_pdf_report` (pdf_generator.py lines 229 to 238
and 252 to 261): above 5 is NAO CONFORME, positive and at most 5 is
ATENCAO, zero is CONFORME. -/
def status_camada_max (densidade : ℚ) : Status :=
  if densidade > 5 then Status.naoConforme
  else if densidade > 0 then Status.atencao
  else Status.conforme

/-- The densidade_media rule applied to Adjacent Area (pdf_generator.py
lines 275 to 281): above 50 is NAO CONFORME, otherwise CONFORME, with
no warning tier. -/
def status_adjacent_area (densidade : ℚ) : Status :=
  if densidade > 50 then Status.naoConforme else Status.conforme

/-- The overall verdict flag of `generate_pdf_report` (pdf_generator.py
lines 222 to 288): `overall_compliant` starts true and is set false by
each evaluated layer whose density exceeds its limit; the report prints
AREA NAO APROVADA exactly when the flag ends false. -/
def overall_compliant (results : List (String × Stats)) : Bool :=
  let oc0 := true
  let oc1 :=
    match List.lookup "Flight Geography" results with
    | some s => if s.densidade_maxima > 5 then false else oc0
    | none => oc0
  let oc2 :=
    match List.lookup "Ground Risk Buffer" results with
    | some s => if s.densidade_maxima > 5 then false else oc1
    | none => oc1
  let oc3 :=
    match List.lookup "Adjacent Area" results with
    | some s => if s.densidade_media > 50 then false else oc2
    | none => oc2
  oc3

/-!
Concrete geometry instantiation used by the witnesses and
counterexamples: a geometry is a finite list of axis-aligned boxes, two
geometries intersect when some pair of their boxes overlaps, the bounds
are the bounding box of all boxes, and the reprojected area is the sum
of the box areas (the boxes of every concrete instance below are
pairwise disjoint).
-/

/-- Concrete geometry: a finite union of axis-aligned boxes. -/
abbrev Geom := List Box

/-- Intersection test for the box-union geometry model. -/
def intersectsG (g h : Geom) : Bool :=
  g.any (fun a => h.any (fun b => Box.overlap a b))

/-- Hull of two boxes. -/
def Box.hull (a b : Box) : Box :=
  { xmin := min a.xmin b.xmin, ymin := min a.ymin b.ymin,
    xmax := max a.xmax b.xmax, ymax := max a.ymax b.ymax }

/-- Bounds of a box-union geometry. -/
def boundsG : Geom → Box
  | [] => { xmin := 0, ymin := 0, xmax := 0, ymax := 0 }
  | [b] => b
  | b :: c :: rest => Box.hull b (boundsG (c :: rest))

/-- Area of one box. -/
def boxArea (b : Box) : ℚ := (b.xmax - b.xmin) * (b.ymax - b.ymin)

/-- Area of a box-union geometry (exact for disjoint boxes). -/
def areaG (g : Geom) : ℚ := (g.map boxArea).sum

/-- Concrete environment over the box-union model, parameterised by the
provider data.  The geometric difference is irrelevant to the concrete
instances that use this environment, and is instantiated as the
left operand. -/
def mkEnv (quadrants : Option (List (Nat × Geom)))
    (tiles : Nat → Option (List (GridCell Geom))) : GeoEnv Geom :=
  { intersects := intersectsG
    bounds := boundsG
    projArea := areaG
    difference := fun g _ => g
    union_all := List.flatten
    quadrants := quadrants
    tiles := tiles }

/-!
Concrete data used by the witnesses and counterexamples.
-/

/-- A tile of one cell used by the cache witness. -/
def tileW10 : List (GridCell Geom) := [{ geom := [], total := 5 }]

/-- Environment for the cache witness: tile 7 loads, every other tile
fails. -/
def envW10 : GeoEnv Geom :=
  mkEnv (some []) (fun g => if g == 7 then some tileW10 else none)

/-- Grid of two cells, one near the origin and one far away, used by the
filter witness. -/
def gridW8 : List (GridCell Geom) :=
  [{ geom := [{ xmin := 0, ymin := 0, xmax := 10, ymax := 10 }], total := 4 },
   { geom := [{ xmin := 100, ymin := 100, xmax := 110, ymax := 110 }], total := 9 }]

/-- Query polygon overlapping only the first cell of gridW8. -/
def polyW8 : Geom := [{ xmin := 5, ymin := 5, xmax := 20, ymax := 20 }]

/-- Environment with no provider data, for claims that only use the
geometric primitives. -/
def envGeo : GeoEnv Geom := mkEnv none (fun _ => none)

/-- Results dictionary holding one Adjacent Area entry above its limit,
used by the compliance witness. -/
def resultsW4 : List (String × Stats) :=
  [("Adjacent Area",
    { total_pessoas := 1000, area_km2 := 10, densidade_media := 51,
      densidade_maxima := 120 })]

/-- C2 counterexample environment: one macro cell far from the polygon. -/
def envC2 : GeoEnv Geom :=
  mkEnv (some [(1, [{ xmin := 1000, ymin := 1000, xmax := 2000, ymax := 2000 }])])
    (fun _ => none)

/-- Polygon near the origin, outside the only macro cell of envC2. -/
def polyC2 : Geom := [{ xmin := 0, ymin := 0, xmax := 10, ymax := 10 }]

/-- Environment whose macro cell covers the polygon but whose tile
downloads all fail, used by the C2 witness. -/
def envC2b : GeoEnv Geom :=
  mkEnv (some [(1, [{ xmin := -100, ymin := -100, xmax := 100, ymax := 100 }])])
    (fun _ => none)

/-- One-cell tile used by the C7 witness: a 1 km by 1 km cell with 100
inhabitants. -/
def cellW7 : GridCell Geom :=
  { geom := [{ xmin := 0, ymin := 0, xmax := 1000, ymax := 1000 }], total := 100 }

/-- Environment for the C7 witness: one macro cell bounding tile 1. -/
def envW7 : GeoEnv Geom :=
  mkEnv (some [(1, [{ xmin := -10000, ymin := -10000, xmax := 10000, ymax := 10000 }])])
    (fun g => if g == 1 then some [cellW7] else none)

/-- Polygon coinciding with the single cell of tileW7 (1 square km). -/
def polyW7 : Geom := [{ xmin := 0, ymin := 0, xmax := 1000, ymax := 1000 }]

/-- Small polygon used by the C1 counterexample: one hundredth of a
square km inside the single 1 square km cell of tile 1. -/
def polyC1 : Geom := [{ xmin := 0, ymin := 0, xmax := 100, ymax := 100 }]

/-- The statistics record of the covering one-cell scenario. -/
def sW7 : Stats :=
  { total_pessoas := 100, area_km2 := 1, densidade_media := 100,
    densidade_maxima := 100 }

/-!
Data of the analyze_population scenarios.
-/

/-- The results entries contributed by one layer: a singleton when the
analysis returned a record, nothing when it returned None. -/
def entradas (nm : String) (s : Option Stats) : List (String × Stats) :=
  match s with
  | some v => [(nm, v)]
  | none => []

/-- A small geometry shared by the document scenarios. -/
def someG : Geom := [{ xmin := 0, ymin := 0, xmax := 1, ymax := 1 }]

/-- Document containing only an Adjacent Area polygon. -/
def docC3 : List (KMLFeature Geom) :=
  [{ name := "Adjacent Area", geom_type := "Polygon", geom := someG }]

/-- Document containing Flight Geography and Adjacent Area polygons but
no Ground Risk Buffer. -/
def docC5 : List (KMLFeature Geom) :=
  [{ name := "Flight Geography", geom_type := "Polygon", geom := someG },
   { name := "Adjacent Area", geom_type := "Polygon", geom := someG }]

/-- Document containing all four safety-margin layers. -/
def docFull : List (KMLFeature Geom) :=
  [{ name := "Flight Geography", geom_type := "Polygon", geom := someG },
   { name := "Contingency Volume", geom_type := "Polygon", geom := someG },
   { name := "Ground Risk Buffer", geom_type := "Polygon", geom := someG },
   { name := "Adjacent Area", geom_type := "Polygon", geom := someG }]

/-- Cell of tile 1 in the two-tile witness scenario. -/
def cellA : GridCell Geom :=
  { geom := [{ xmin := 0, ymin := 0, xmax := 1000, ymax := 1000 }], total := 30 }

/-- Cell of tile 2 in the two-tile witness scenario. -/
def cellB : GridCell Geom :=
  { geom := [{ xmin := 1000, ymin := 0, xmax := 2000, ymax := 1000 }], total := 70 }

/-- Environment of the two-tile witness scenario: two adjacent macro
cells bounding tiles 1 and 2. -/
def envW6 : GeoEnv Geom :=
  mkEnv (some [(1, [{ xmin := 0, ymin := 0, xmax := 1000, ymax := 1000 }]),
               (2, [{ xmin := 1000, ymin := 0, xmax := 2000, ymax := 1000 }])])
    (fun g => if g == 1 then some [cellA]
      else if g == 2 then some [cellB] else none)

/-- Polygon spanning both tiles of the two-tile witness scenario. -/
def polyW6 : Geom := [{ xmin := 500, ymin := 0, xmax := 1500, ymax := 1000 }]

/-!
Helper lemmas.
-/

/-- The fold computing a list maximum dominates its initial value. -/
theorem le_foldl_max (l : List ℚ) (a : ℚ) : a ≤ l.foldl max a := by
  induction l generalizing a with
  | nil => exact le_refl a
  | cons b t ih => exact le_trans (le_max_left a b) (ih (max a b))

/-- The fold computing a list maximum dominates every element. -/
theorem mem_le_foldl_max (l : List ℚ) (a x : ℚ) (hx : x ∈ l) :
    x ≤ l.foldl max a := by
  induction l generalizing a with
  | nil => cases hx
  | cons b t ih =>
    rcases List.mem_cons.mp hx with h | h
    · subst h; exact le_trans (le_max_right a x) (le_foldl_max t (max a x))
    · exact ih (max a b) h

/-- Every element of a list is at most its listMax. -/
theorem listMax_ge (l : List ℚ) (x : ℚ) (hx : x ∈ l) : x ≤ listMax l := by
  cases l with
  | nil => cases hx
  | cons b t =>
    rcases List.mem_cons.mp hx with h | h
    · subst h; exact le_foldl_max t x
    · exact mem_le_foldl_max t b x h

/-- Every frame appended to todos_dados by the collection loop is
non-empty (the append is guarded by the emptiness test of line 276). -/
theorem coletar_members_ne_nil {G : Type} (env : GeoEnv G) (area_geom : G) :
    ∀ (gids : List Nat) (cache : GridCache G) (l : List (GridCell G)),
      l ∈ (coletar_dados env area_geom gids cache).1 → l ≠ [] := by
  intro gids
  induction gids with
  | nil => intro cache l h; simp [coletar_dados] at h
  | cons gid rest ih =>
    intro cache l h
    simp only [coletar_dados] at h
    rcases hr : (carregar_grid_ibge env cache gid true).1.1 with _ | grid
    · rw [hr] at h
      simp only [] at h
      exact ih _ l h
    · rw [hr] at h
      simp only [] at h
      by_cases hemp : (filtrar_celulas env grid area_geom).isEmpty
      · rw [if_pos hemp] at h
        exact ih _ l h
      · rw [if_neg hemp] at h
        rcases List.mem_cons.mp h with h1 | h1
        · subst h1
          intro hn
          rw [hn] at hemp
          exact hemp rfl
        · exact ih _ l h1

/-!
Claim theorems.
-/

/-- C10: a failed tile fetch is not memoized by carregar_grid_ibge: on a
cache miss with a failing download the cache is returned unchanged and
the result is absent, so a later call for the same identifier attempts
the download again (one provider request, the third component);
a successful load is inserted into the cache before being returned, and
a cached identifier is served from the cache with zero provider
requests. -/
theorem C10_cache_behavior {G : Type} (env : GeoEnv G) (cache : GridCache G)
    (grade_id : Nat) :
    (List.lookup grade_id cache = none → env.tiles grade_id = none →
      carregar_grid_ibge env cache grade_id true = ((none, grade_id), cache, 1)) ∧
    (∀ d, List.lookup grade_id cache = none → env.tiles grade_id = some d →
      carregar_grid_ibge env cache grade_id true =
        ((some d, grade_id), (grade_id, d) :: cache, 1) ∧
      List.lookup grade_id ((grade_id, d) :: cache) = some d) ∧
    (∀ d, List.lookup grade_id cache = some d →
      carregar_grid_ibge env cache grade_id true = ((some d, grade_id), cache, 0)) := by
  refine ⟨?_, ?_, ?_⟩
  · intro h1 h2
    simp [carregar_grid_ibge, h1, h2]
  · intro d h1 h2
    refine ⟨by simp [carregar_grid_ibge, h1, h2], ?_⟩
    simp [List.lookup_cons]
  · intro d h1
    simp [carregar_grid_ibge, h1]

/-- Witness for C10 at grade identifiers 3 (failing download) and 7
(successful download, then cache hit). -/
theorem C10_witness :
    (carregar_grid_ibge envW10 [] 3 true = ((none, 3), [], 1)) ∧
    (carregar_grid_ibge envW10 [] 7 true =
      ((some tileW10, 7), [(7, tileW10)], 1) ∧
      List.lookup 7 [(7, tileW10)] = some tileW10) ∧
    (carregar_grid_ibge envW10 [(7, tileW10)] 7 true =
      ((some tileW10, 7), [(7, tileW10)], 0)) :=
  ⟨(C10_cache_behavior envW10 [] 3).1 rfl rfl,
   (C10_cache_behavior envW10 [] 7).2.1 tileW10 rfl rfl,
   (C10_cache_behavior envW10 [(7, tileW10)] 7).2.2 tileW10 rfl⟩

/-- C8: when the bounding-box test is sound for the cells of the tile
(a cell whose geometry intersects the polygon has a bounding box
overlapping the polygon bounds, which holds for the spatial index of
any geometry library), the two-stage filter of processar_todas_grades
retains exactly the cells retained by the direct intersects filter. -/
theorem C8_two_stage_filter {G : Type} (env : GeoEnv G)
    (grid : List (GridCell G)) (area_geom : G)
    (hsound : ∀ c ∈ grid, env.intersects c.geom area_geom = true →
      (env.bounds c.geom).overlap (env.bounds area_geom) = true) :
    filtrar_celulas env grid area_geom =
      grid.filter (fun c => env.intersects c.geom area_geom) := by
  unfold filtrar_celulas
  by_cases hemp :
      (grid.filter
        (fun c => (env.bounds c.geom).overlap (env.bounds area_geom))).isEmpty
  · rw [if_pos hemp]
    have hnil := List.isEmpty_iff.mp hemp
    symm
    rw [List.filter_eq_nil_iff]
    intro c hc hint
    have hbox := hsound c hc hint
    have : c ∈ grid.filter
        (fun c => (env.bounds c.geom).overlap (env.bounds area_geom)) :=
      List.mem_filter.mpr ⟨hc, hbox⟩
    rw [hnil] at this
    cases this
  · rw [if_neg hemp, List.filter_filter]
    apply List.filter_congr
    intro c hc
    by_cases hint : env.intersects c.geom area_geom = true
    · simp [hint, hsound c hc hint]
    · simp [Bool.eq_false_iff.mpr hint]

/-- Witness for C8: the box-model environment, a grid of two cells and a
polygon overlapping one of them. -/
theorem C8_witness :
    filtrar_celulas envGeo gridW8 polyW8 =
      gridW8.filter (fun c => envGeo.intersects c.geom polyW8) ∧
    gridW8.filter (fun c => envGeo.intersects c.geom polyW8) =
      [{ geom := [{ xmin := 0, ymin := 0, xmax := 10, ymax := 10 }], total := 4 }] :=
  ⟨C8_two_stage_filter envGeo gridW8 polyW8 (by decide), by decide⟩

/-- The densidade_maxima status equals NAO CONFORME exactly above the
limit of 5. -/
theorem status_camada_max_nc_iff (d : ℚ) :
    status_camada_max d = Status.naoConforme ↔ d > 5 := by
  unfold status_camada_max
  split_ifs with h1 h2 <;> simp_all

/-- The densidade_media status of Adjacent Area equals NAO CONFORME
exactly above the limit of 50. -/
theorem status_adjacent_area_nc_iff (d : ℚ) :
    status_adjacent_area d = Status.naoConforme ↔ d > 50 := by
  unfold status_adjacent_area
  split_ifs with h1 <;> simp_all

/-- C4: the per-layer compliance rules of generate_pdf_report.  Flight
Geography and Ground Risk Buffer are judged on densidade_maxima with
limit 5 (above: NAO CONFORME, positive up to the limit: ATENCAO, zero:
CONFORME); Adjacent Area is judged on densidade_media with limit 50 and
no warning tier; and the overall verdict is non-approved exactly when
at least one layer present in the results is NAO CONFORME under its
rule. -/
theorem C4_compliance_rules (results : List (String × Stats)) (d : ℚ) :
    (d > 5 → status_camada_max d = Status.naoConforme) ∧
    (0 < d → d ≤ 5 → status_camada_max d = Status.atencao) ∧
    (status_camada_max 0 = Status.conforme) ∧
    (d > 50 → status_adjacent_area d = Status.naoConforme) ∧
    (d ≤ 50 → status_adjacent_area d = Status.conforme) ∧
    (overall_compliant results = false ↔
      (∃ s, List.lookup "Flight Geography" results = some s ∧
        status_camada_max s.densidade_maxima = Status.naoConforme) ∨
      (∃ s, List.lookup "Ground Risk Buffer" results = some s ∧
        status_camada_max s.densidade_maxima = Status.naoConforme) ∨
      (∃ s, List.lookup "Adjacent Area" results = some s ∧
        status_adjacent_area s.densidade_media = Status.naoConforme)) := by
  refine ⟨?_, ?_, ?_, ?_, ?_, ?_⟩
  · intro h; simp [status_camada_max, h]
  · intro h1 h2
    simp [status_camada_max, h1, not_lt.mpr h2]
  · simp [status_camada_max]
  · intro h; simp [status_adjacent_area, h]
  · intro h; simp [status_adjacent_area, not_lt.mpr h]
  · simp only [status_camada_max_nc_iff, status_adjacent_area_nc_iff]
    rcases hfg : List.lookup "Flight Geography" results with _ | s1 <;>
      rcases hgrb : List.lookup "Ground Risk Buffer" results with _ | s2 <;>
        rcases hadj : List.lookup "Adjacent Area" results with _ | s3 <;>
          simp only [overall_compliant, hfg, hgrb, hadj] <;>
            (try split_ifs) <;> simp_all

/-- Witness for C4 at the concrete densities of the spec scenarios and
a results dictionary whose Adjacent Area entry exceeds its limit. -/
theorem C4_witness :
    status_camada_max 6 = Status.naoConforme ∧
    status_camada_max 2 = Status.atencao ∧
    status_camada_max 0 = Status.conforme ∧
    status_adjacent_area 51 = Status.naoConforme ∧
    status_adjacent_area 50 = Status.conforme ∧
    overall_compliant resultsW4 = false := by
  have h6 := C4_compliance_rules resultsW4 6
  have h2 := C4_compliance_rules resultsW4 2
  have h51 := C4_compliance_rules resultsW4 51
  have h50 := C4_compliance_rules resultsW4 50
  refine ⟨h6.1 (by norm_num), h2.2.1 (by norm_num) (by norm_num), h6.2.2.1,
    h51.2.2.2.1 (by norm_num), h50.2.2.2.2.1 (by norm_num), ?_⟩
  refine (h6.2.2.2.2.2.mpr (Or.inr (Or.inr ⟨_, rfl, ?_⟩)))
  norm_num [status_adjacent_area, resultsW4]

/-!
Characterisation of processar_todas_grades.
-/

/-- The combined cell list is non-empty whenever the collection loop
produced at least one frame. -/
theorem dadosCombinados_ne_nil {G : Type} (env : GeoEnv G) (cache : GridCache G)
    (area_geom : G)
    (h : ¬ ((coletar_dados env area_geom
        (identificar_grades_relevantes env area_geom) cache).1.isEmpty = true)) :
    dadosCombinados env cache area_geom ≠ [] := by
  unfold dadosCombinados
  rcases hc : (coletar_dados env area_geom
      (identificar_grades_relevantes env area_geom) cache).1 with _ | ⟨a, t⟩
  · rw [hc] at h
    exact absurd rfl h
  · have ha : a ≠ [] :=
      coletar_members_ne_nil env area_geom _ cache a
        (by rw [hc]; exact List.mem_cons_self a t)
    simp only [List.flatten_cons, ne_eq, List.append_eq_nil]
    intro hcontra
    exact ha hcontra.1

/-- A successful run of processar_todas_grades determines its statistics
record: the combined cell list is non-empty and the record is built
from calcular_estatisticas applied to the derived density columns and
the polygon itself. -/
theorem processar_eq_some {G : Type} (env : GeoEnv G) (cache : GridCache G)
    (area_geom : G) (s : Stats) (cache2 : GridCache G)
    (h : processar_todas_grades env cache area_geom = (some s, cache2)) :
    dadosCombinados env cache area_geom ≠ [] ∧
    s = { total_pessoas := (calcular_estatisticas env
            (dados_area_cells env (dadosCombinados env cache area_geom))
            (some area_geom)).1,
          area_km2 := (calcular_estatisticas env
            (dados_area_cells env (dadosCombinados env cache area_geom))
            (some area_geom)).2.1,
          densidade_media := (calcular_estatisticas env
            (dados_area_cells env (dadosCombinados env cache area_geom))
            (some area_geom)).2.2.1,
          densidade_maxima := (calcular_estatisticas env
            (dados_area_cells env (dadosCombinados env cache area_geom))
            (some area_geom)).2.2.2 } := by
  unfold processar_todas_grades at h
  by_cases h1 : (identificar_grades_relevantes env area_geom).isEmpty
  · rw [if_pos h1] at h
    simp at h
  · rw [if_neg h1] at h
    simp only [] at h
    by_cases h2 : ((coletar_dados env area_geom
        (identificar_grades_relevantes env area_geom) cache).1.isEmpty = true)
    · rw [if_pos h2] at h
      simp at h
    · rw [if_neg h2] at h
      rw [Prod.mk.injEq] at h
      obtain ⟨hs, _⟩ := h
      refine ⟨dadosCombinados_ne_nil env cache area_geom h2, ?_⟩
      exact (Option.some.inj hs).symm

/-- Unfolding of calcular_estatisticas on a non-empty cell list with the
polygon supplied. -/
theorem calcular_estatisticas_some_eq {G : Type} (env : GeoEnv G)
    (cells : List StatCell) (g : G) (h : cells ≠ []) :
    calcular_estatisticas env cells (some g) =
      ((cells.map StatCell.total).sum, env.projArea g / 1000000,
        (if env.projArea g / 1000000 > 0 then
          (cells.map StatCell.total).sum / (env.projArea g / 1000000) else 0),
        listMax (cells.map StatCell.densidade_pop_km2)) := by
  have hie : cells.isEmpty = false := by
    simp [List.isEmpty_iff, h]
  simp [calcular_estatisticas, hie]

/-- The cache-miss failure path of carregar_grid_ibge. -/
theorem carregar_fail {G : Type} (env : GeoEnv G) (cache : GridCache G)
    (gid : Nat) (h1 : List.lookup gid cache = none) (h2 : env.tiles gid = none) :
    carregar_grid_ibge env cache gid true = ((none, gid), cache, 1) := by
  simp [carregar_grid_ibge, h1, h2]

/-- An absent tile result means both a cache miss and a provider
failure. -/
theorem tileData_none_cases {G : Type} (env : GeoEnv G) (cache : GridCache G)
    (gid : Nat) (h : tileData env cache gid = none) :
    List.lookup gid cache = none ∧ env.tiles gid = none := by
  unfold tileData carregar_grid_ibge at h
  rcases hl : List.lookup gid cache with _ | d
  · rw [hl] at h
    simp only [] at h
    rcases ht : env.tiles gid with _ | dados
    · exact ⟨rfl, rfl⟩
    · rw [ht] at h
      simp at h
  · rw [hl] at h
    simp at h

/-- The collection loop yields no frame when every relevant grade fails
to load. -/
theorem coletar_all_fail {G : Type} (env : GeoEnv G) (area_geom : G) :
    ∀ (gids : List Nat) (cache : GridCache G),
      (∀ gid ∈ gids, tileData env cache gid = none) →
      (coletar_dados env area_geom gids cache) = ([], cache) := by
  intro gids
  induction gids with
  | nil => intro cache _; rfl
  | cons gid rest ih =>
    intro cache hall
    have hhd := tileData_none_cases env cache gid
      (hall gid (List.mem_cons_self gid rest))
    have hcar := carregar_fail env cache gid hhd.1 hhd.2
    simp only [coletar_dados, hcar]
    exact ih cache (fun g hg => hall g (List.mem_cons_of_mem gid hg))

/-- C2 counterexample: for a polygon outside all macro cells the Python
function returns None, not a statistics record of all-zero fields. -/
theorem C2_counterexample :
    (processar_todas_grades envC2 [] polyC2).1 = none ∧
    (processar_todas_grades envC2 [] polyC2).1 ≠
      some { total_pessoas := 0, area_km2 := 0, densidade_media := 0,
             densidade_maxima := 0 } := by
  decide

/-- C2 amended: processar_todas_grades signals the empty outcome with
the None sentinel instead of an all-zero record, and never by an error:
it returns None exactly when no cell survives the collection loop, in
particular when the quadrant index is unavailable and when every
relevant tile fails to load. -/
theorem C2_none_sentinel {G : Type} (env : GeoEnv G) (cache : GridCache G)
    (area_geom : G) :
    ((processar_todas_grades env cache area_geom).1 = none ↔
      dadosCombinados env cache area_geom = []) ∧
    (env.quadrants = none →
      (processar_todas_grades env cache area_geom).1 = none) ∧
    ((∀ gid ∈ identificar_grades_relevantes env area_geom,
        tileData env cache gid = none) →
      (processar_todas_grades env cache area_geom).1 = none) := by
  have hmain : (processar_todas_grades env cache area_geom).1 = none ↔
      dadosCombinados env cache area_geom = [] := by
    unfold processar_todas_grades
    by_cases h1 : (identificar_grades_relevantes env area_geom).isEmpty
    · rw [if_pos h1]
      simp only [true_iff]
      unfold dadosCombinados
      rw [List.isEmpty_iff.mp h1]
      rfl
    · rw [if_neg h1]
      simp only []
      by_cases h2 : ((coletar_dados env area_geom
          (identificar_grades_relevantes env area_geom) cache).1.isEmpty = true)
      · rw [if_pos h2]
        simp only [true_iff]
        unfold dadosCombinados
        rw [List.isEmpty_iff.mp h2]
        rfl
      · rw [if_neg h2]
        simp only [reduceCtorEq, false_iff]
        exact dadosCombinados_ne_nil env cache area_geom h2
  refine ⟨hmain, ?_, ?_⟩
  · intro hq
    rw [hmain]
    unfold dadosCombinados identificar_grades_relevantes
    rw [hq]
    rfl
  · intro hall
    rw [hmain]
    unfold dadosCombinados
    rw [coletar_all_fail env area_geom _ cache hall]
    rfl

/-- Witness for C2: the macro cell covers the polygon but every tile
download fails, and the analysis returns the None sentinel. -/
theorem C2_witness :
    (processar_todas_grades envC2b [] polyC2).1 = none :=
  (C2_none_sentinel envC2b [] polyC2).2.2 (fun _ _ => rfl)

/-- C7: with the polygon supplied, the statistics use as area_km2 the
reprojected area of the polygon itself divided by 1e6, never the sum of
the intersecting cell areas, and densidade_media is total over area,
defined as zero when the area is not positive; the same holds of every
record produced by processar_todas_grades, which always supplies the
polygon. -/
theorem C7_area_from_polygon {G : Type} (env : GeoEnv G) (cells : List StatCell)
    (g : G) (cache : GridCache G) :
    (cells ≠ [] →
      calcular_estatisticas env cells (some g) =
        ((cells.map StatCell.total).sum, env.projArea g / 1000000,
          (if env.projArea g / 1000000 > 0 then
            (cells.map StatCell.total).sum / (env.projArea g / 1000000) else 0),
          listMax (cells.map StatCell.densidade_pop_km2))) ∧
    (∀ s cache2, processar_todas_grades env cache g = (some s, cache2) →
      s.area_km2 = env.projArea g / 1000000 ∧
      s.densidade_media =
        (if s.area_km2 > 0 then s.total_pessoas / s.area_km2 else 0)) := by
  constructor
  · intro h
    exact calcular_estatisticas_some_eq env cells g h
  · intro s cache2 hrun
    obtain ⟨hne, hs⟩ := processar_eq_some env cache g s cache2 hrun
    have hdne : dados_area_cells env (dadosCombinados env cache g) ≠ [] := by
      intro hnil
      apply hne
      rcases hd : dadosCombinados env cache g with _ | ⟨a, t⟩
      · rfl
      · rw [hd] at hnil
        simp [dados_area_cells] at hnil
    have hcalc := calcular_estatisticas_some_eq env
      (dados_area_cells env (dadosCombinados env cache g)) g hdne
    rw [hs, hcalc]
    simp

/-- The relevant grades of the W7 scenario. -/
theorem identificarW7_eq : identificar_grades_relevantes envW7 polyW7 = [1] := by
  have hq : envW7.quadrants =
      some [(1, [{ xmin := -10000, ymin := -10000, xmax := 10000, ymax := 10000 }])] := rfl
  have hi : envW7.intersects = intersectsG := rfl
  simp only [identificar_grades_relevantes, hq, hi]
  norm_num [intersectsG, boundsG, Box.overlap, polyW7, List.filter,
    List.dedup, List.mergeSort]

/-- The collection loop of the W7 scenario gathers the single cell. -/
theorem coletarW7_eq :
    coletar_dados envW7 polyW7 [1] [] = ([[cellW7]], [(1, [cellW7])]) := by
  decide

/-- The combined cell list of the W7 scenario. -/
theorem dadosCombinadosW7_eq : dadosCombinados envW7 [] polyW7 = [cellW7] := by
  unfold dadosCombinados
  rw [identificarW7_eq, coletarW7_eq]
  rfl

/-- The run of the C7 witness: 100 inhabitants, 1 square km, mean and
maximum density 100. -/
theorem processarW7_eq :
    processar_todas_grades envW7 [] polyW7 =
      (some { total_pessoas := 100, area_km2 := 1, densidade_media := 100,
              densidade_maxima := 100 }, [(1, [cellW7])]) := by
  have hp : envW7.projArea = areaG := rfl
  simp only [processar_todas_grades, identificarW7_eq, coletarW7_eq]
  norm_num [dados_area_cells, calcular_estatisticas, listMax, hp, areaG,
    boxArea, cellW7, polyW7]

/-- Witness for C7 at the concrete one-cell scenario of the spec. -/
theorem C7_witness :
    calcular_estatisticas envW7
        [{ total := 100, area_m2 := 1000000, densidade_pop_km2 := 100 }]
        (some polyW7) =
      (100, envW7.projArea polyW7 / 1000000,
        (if envW7.projArea polyW7 / 1000000 > 0 then
          100 / (envW7.projArea polyW7 / 1000000) else 0), 100) ∧
    ({ total_pessoas := 100, area_km2 := 1, densidade_media := 100,
       densidade_maxima := 100 } : Stats).area_km2 =
      envW7.projArea polyW7 / 1000000 := by
  have h := C7_area_from_polygon envW7
    [{ total := 100, area_m2 := 1000000, densidade_pop_km2 := 100 }] polyW7
    ([] : GridCache Geom)
  refine ⟨?_, ?_⟩
  · have := h.1 (by simp)
    simpa [listMax] using this
  · exact (h.2 _ _ processarW7_eq).1

/-!
Claim C1.
-/

/-- Sum of the density bound over a cell list, used by the amended mean
versus maximum inequality. -/
theorem sum_mul_area_div (l : List StatCell) (M : ℚ) :
    (l.map (fun d => M * (d.area_m2 / 1000000))).sum =
      M * ((l.map StatCell.area_m2).sum / 1000000) := by
  induction l with
  | nil => simp
  | cons d t ih =>
    simp only [List.map_cons, List.sum_cons, ih]
    ring

/-- The relevant grades of the C1 counterexample scenario. -/
theorem identificarC1_eq : identificar_grades_relevantes envW7 polyC1 = [1] := by
  have hq : envW7.quadrants =
      some [(1, [{ xmin := -10000, ymin := -10000, xmax := 10000, ymax := 10000 }])] := rfl
  have hi : envW7.intersects = intersectsG := rfl
  simp only [identificar_grades_relevantes, hq, hi]
  norm_num [intersectsG, boundsG, Box.overlap, polyC1, List.filter,
    List.dedup, List.mergeSort]

/-- The collection loop of the C1 counterexample scenario. -/
theorem coletarC1_eq :
    coletar_dados envW7 polyC1 [1] [] = ([[cellW7]], [(1, [cellW7])]) := by
  decide

/-- C1 counterexample: a polygon of a hundredth of a square km inside a
1 square km cell of population 100 yields area_km2 positive,
densidade_media equal to 10000 and densidade_maxima equal to 100, so
densidade_media exceeds densidade_maxima. -/
theorem C1_counterexample :
    processar_todas_grades envW7 [] polyC1 =
      (some { total_pessoas := 100, area_km2 := 1 / 100,
              densidade_media := 10000, densidade_maxima := 100 },
        [(1, [cellW7])]) ∧
    (0 : ℚ) < 1 / 100 ∧ ¬ ((10000 : ℚ) ≤ (100 : ℚ)) := by
  refine ⟨?_, by norm_num, by norm_num⟩
  have hp : envW7.projArea = areaG := rfl
  simp only [processar_todas_grades, identificarC1_eq, coletarC1_eq]
  norm_num [dados_area_cells, calcular_estatisticas, listMax, hp, areaG,
    boxArea, cellW7, polyC1]

/-- C1 amended: an empty cell list yields the all-zero record, and for a
successful analysis the invariant densidade_media at most
densidade_maxima holds provided the reprojected polygon area is at
least the total reprojected area of the intersecting cells (cells with
nonnegative population and positive area); when the polygon covers only
a fraction of the cells it touches, the invariant can fail, as the
counterexample shows. -/
theorem C1_mean_le_max_amended {G : Type} (env : GeoEnv G) (cache : GridCache G)
    (area_geom : G) :
    (∀ ag : Option G, calcular_estatisticas env [] ag = (0, 0, 0, 0)) ∧
    (∀ s cache2, processar_todas_grades env cache area_geom = (some s, cache2) →
      (∀ c ∈ dadosCombinados env cache area_geom,
        0 ≤ c.total ∧ 0 < env.projArea c.geom) →
      ((dadosCombinados env cache area_geom).map
        (fun c => env.projArea c.geom)).sum ≤ env.projArea area_geom →
      0 < s.area_km2 ∧ s.densidade_media ≤ s.densidade_maxima) := by
  constructor
  · intro ag
    rfl
  · intro s cache2 hrun hcells hsum
    obtain ⟨hne, hs⟩ := processar_eq_some env cache area_geom s cache2 hrun
    have hdne : dados_area_cells env (dadosCombinados env cache area_geom) ≠ [] := by
      intro hnil
      apply hne
      rcases hd : dadosCombinados env cache area_geom with _ | ⟨a, t⟩
      · rfl
      · rw [hd] at hnil
        simp [dados_area_cells] at hnil
    have hcalc := calcular_estatisticas_some_eq env
      (dados_area_cells env (dadosCombinados env cache area_geom)) area_geom hdne
    have hsum_pos :
        0 < ((dadosCombinados env cache area_geom).map
          (fun c => env.projArea c.geom)).sum := by
      apply List.sum_pos
      · intro x hx
        obtain ⟨c, hc, hcx⟩ := List.mem_map.mp hx
        rw [← hcx]
        exact (hcells c hc).2
      · intro hmapnil
        exact hne (List.map_eq_nil_iff.mp hmapnil)
    have hApos : 0 < env.projArea area_geom := lt_of_lt_of_le hsum_pos hsum
    have hA6pos : 0 < env.projArea area_geom / 1000000 := by positivity
    have harea : s.area_km2 = env.projArea area_geom / 1000000 := by
      rw [hs, hcalc]
    refine ⟨by rw [harea]; exact hA6pos, ?_⟩
    set M := listMax ((dados_area_cells env
      (dadosCombinados env cache area_geom)).map StatCell.densidade_pop_km2) with hM
    have hdens_le : ∀ d ∈ dados_area_cells env (dadosCombinados env cache area_geom),
        d.total ≤ M * (d.area_m2 / 1000000) ∧ 0 < d.area_m2 := by
      intro d hd
      obtain ⟨c, hc, hdc⟩ := List.mem_map.mp hd
      obtain ⟨htot, harea_c⟩ := hcells c hc
      have ha6 : (0 : ℚ) < env.projArea c.geom / 1000000 := by positivity
      have hdm : c.total / (env.projArea c.geom / 1000000) ≤ M := by
        apply listMax_ge
        apply List.mem_map.mpr
        exact ⟨d, hd, by rw [← hdc]⟩
      constructor
      · rw [← hdc]
        simp only []
        calc c.total
            = (c.total / (env.projArea c.geom / 1000000)) *
              (env.projArea c.geom / 1000000) :=
              (div_mul_cancel₀ c.total (ne_of_gt ha6)).symm
          _ ≤ M * (env.projArea c.geom / 1000000) :=
              mul_le_mul_of_nonneg_right hdm (le_of_lt ha6)
      · rw [← hdc]
        exact harea_c
    have hMnonneg : 0 ≤ M := by
      rcases hd : dados_area_cells env (dadosCombinados env cache area_geom)
        with _ | ⟨d0, t0⟩
      · exact absurd hd hdne
      · have hd0 : d0 ∈ dados_area_cells env (dadosCombinados env cache area_geom) := by
          rw [hd]; exact List.mem_cons_self d0 t0
        obtain ⟨c, hc, hdc⟩ := List.mem_map.mp hd0
        obtain ⟨htot, harea_c⟩ := hcells c hc
        have hnn : (0 : ℚ) ≤ c.total / (env.projArea c.geom / 1000000) :=
          div_nonneg htot (by positivity)
        have : c.total / (env.projArea c.geom / 1000000) ≤ M := by
          apply listMax_ge
          apply List.mem_map.mpr
          exact ⟨d0, hd0, by rw [← hdc]⟩
        linarith
    have hT :
        ((dados_area_cells env (dadosCombinados env cache area_geom)).map
          StatCell.total).sum ≤
        M * (((dados_area_cells env (dadosCombinados env cache area_geom)).map
          StatCell.area_m2).sum / 1000000) := by
      rw [← sum_mul_area_div]
      apply List.sum_le_sum
      intro d hd
      exact (hdens_le d hd).1
    have hareas_eq :
        ((dados_area_cells env (dadosCombinados env cache area_geom)).map
          StatCell.area_m2).sum =
        ((dadosCombinados env cache area_geom).map
          (fun c => env.projArea c.geom)).sum := by
      unfold dados_area_cells
      rw [List.map_map]
      rfl
    have hT2 :
        ((dados_area_cells env (dadosCombinados env cache area_geom)).map
          StatCell.total).sum ≤ M * (env.projArea area_geom / 1000000) := by
      apply le_trans hT
      apply mul_le_mul_of_nonneg_left _ hMnonneg
      rw [hareas_eq]
      gcongr
    rw [hs]
    simp only [hcalc]
    rw [if_pos hA6pos, div_le_iff₀ hA6pos]
    exact hT2

/-- Witness for the amended C1 at the covering one-cell scenario, where
the polygon area equals the cell area and the invariant holds with
equality. -/
theorem C1_witness :
    (0 : ℚ) < sW7.area_km2 ∧ sW7.densidade_media ≤ sW7.densidade_maxima := by
  apply (C1_mean_le_max_amended envW7 [] polyW7).2 sW7 [(1, [cellW7])] processarW7_eq
  · rw [dadosCombinadosW7_eq]
    intro c hc
    rw [List.mem_singleton] at hc
    subst hc
    constructor
    · norm_num [cellW7]
    · show (0 : ℚ) < areaG cellW7.geom
      norm_num [cellW7, areaG, boxArea]
  · rw [dadosCombinadosW7_eq]
    have hp : envW7.projArea = areaG := rfl
    simp only [hp]
    norm_num [cellW7, polyW7, areaG, boxArea]

/-- A key found by lookup lives in a non-empty list. -/
theorem lookup_some_ne_nil {α β : Type} [BEq α] {k : α} {v : β}
    {l : List (α × β)} (h : List.lookup k l = some v) : l ≠ [] := by
  intro hn
  subst hn
  simp [List.lookup] at h

/-- Run outcome when extraction yields no usable layer. -/
theorem analyze_noLayers {G : Type} (env : GeoEnv G) (cache : GridCache G)
    (doc : List (KMLFeature G))
    (h : extrair_layers_kml env doc layers_kml = []) :
    analyze_population env cache doc = (RunOutcome.noLayers, cache) := by
  simp [analyze_population, h]

/-- Run outcome when layers were extracted but Flight Geography is
absent: the direct subscript raises KeyError. -/
theorem analyze_keyError_fg {G : Type} (env : GeoEnv G) (cache : GridCache G)
    (doc : List (KMLFeature G))
    (hne : extrair_layers_kml env doc layers_kml ≠ [])
    (h : List.lookup "Flight Geography"
      (extrair_layers_kml env doc layers_kml) = none) :
    analyze_population env cache doc =
      (RunOutcome.keyError "Flight Geography", cache) := by
  have hie : (extrair_layers_kml env doc layers_kml).isEmpty = false := by
    simp [List.isEmpty_iff, hne]
  simp [analyze_population, hie, h]

/-- Run outcome when Flight Geography is present but Ground Risk Buffer
is absent: the Flight Geography analysis runs, then the direct
subscript on Ground Risk Buffer raises KeyError. -/
theorem analyze_keyError_grb {G : Type} (env : GeoEnv G) (cache : GridCache G)
    (doc : List (KMLFeature G)) (fg : G)
    (hfg : List.lookup "Flight Geography"
      (extrair_layers_kml env doc layers_kml) = some fg)
    (hgrb : List.lookup "Ground Risk Buffer"
      (extrair_layers_kml env doc layers_kml) = none) :
    analyze_population env cache doc =
      (RunOutcome.keyError "Ground Risk Buffer",
        (processar_todas_grades env cache fg).2) := by
  have hie : (extrair_layers_kml env doc layers_kml).isEmpty = false := by
    simp [List.isEmpty_iff, lookup_some_ne_nil hfg]
  simp [analyze_population, hie, hfg, hgrb]

/-- Run outcome when Flight Geography and Ground Risk Buffer are present
and Adjacent Area is absent: both analyses run and Adjacent Area is
skipped. -/
theorem analyze_ok_no_adj {G : Type} (env : GeoEnv G) (cache : GridCache G)
    (doc : List (KMLFeature G)) (fg grb : G)
    (hfg : List.lookup "Flight Geography"
      (extrair_layers_kml env doc layers_kml) = some fg)
    (hgrb : List.lookup "Ground Risk Buffer"
      (extrair_layers_kml env doc layers_kml) = some grb)
    (hadj : List.lookup "Adjacent Area"
      (extrair_layers_kml env doc layers_kml) = none) :
    analyze_population env cache doc =
      (RunOutcome.ok
        (entradas "Flight Geography" (processar_todas_grades env cache fg).1 ++
          entradas "Ground Risk Buffer"
            (processar_todas_grades env
              (processar_todas_grades env cache fg).2 grb).1),
        (processar_todas_grades env
          (processar_todas_grades env cache fg).2 grb).2) := by
  have hie : (extrair_layers_kml env doc layers_kml).isEmpty = false := by
    simp [List.isEmpty_iff, lookup_some_ne_nil hfg]
  rcases h1 : (processar_todas_grades env cache fg).1 with _ | s1 <;>
    rcases h2 : (processar_todas_grades env
      (processar_todas_grades env cache fg).2 grb).1 with _ | s2 <;>
      simp [analyze_population, hie, hfg, hgrb, hadj, entradas, h1, h2]

/-- Run outcome when all of Flight Geography, Ground Risk Buffer and
Adjacent Area are present: three analyses run, the third on the
geometric difference of the Adjacent Area and Ground Risk Buffer
polygons. -/
theorem analyze_ok_full {G : Type} (env : GeoEnv G) (cache : GridCache G)
    (doc : List (KMLFeature G)) (fg grb adj : G)
    (hfg : List.lookup "Flight Geography"
      (extrair_layers_kml env doc layers_kml) = some fg)
    (hgrb : List.lookup "Ground Risk Buffer"
      (extrair_layers_kml env doc layers_kml) = some grb)
    (hadj : List.lookup "Adjacent Area"
      (extrair_layers_kml env doc layers_kml) = some adj) :
    analyze_population env cache doc =
      (RunOutcome.ok
        (entradas "Flight Geography" (processar_todas_grades env cache fg).1 ++
          entradas "Ground Risk Buffer"
            (processar_todas_grades env
              (processar_todas_grades env cache fg).2 grb).1 ++
          entradas "Adjacent Area"
            (processar_todas_grades env
              (processar_todas_grades env
                (processar_todas_grades env cache fg).2 grb).2
              (env.difference adj grb)).1),
        (processar_todas_grades env
          (processar_todas_grades env
            (processar_todas_grades env cache fg).2 grb).2
          (env.difference adj grb)).2) := by
  have hie : (extrair_layers_kml env doc layers_kml).isEmpty = false := by
    simp [List.isEmpty_iff, lookup_some_ne_nil hfg]
  rcases h1 : (processar_todas_grades env cache fg).1 with _ | s1 <;>
    rcases h2 : (processar_todas_grades env
      (processar_todas_grades env cache fg).2 grb).1 with _ | s2 <;>
      rcases h3 : (processar_todas_grades env
        (processar_todas_grades env
          (processar_todas_grades env cache fg).2 grb).2
        (env.difference adj grb)).1 with _ | s3 <;>
        simp [analyze_population, hie, hfg, hgrb, hadj, entradas, h1, h2, h3]

/-- C3 counterexample: a document whose only extracted layer is
Adjacent Area makes analyze_population raise KeyError on the direct
Flight Geography subscript instead of analyzing the present layer. -/
theorem C3_counterexample :
    analyze_population envGeo [] docC3 =
      (RunOutcome.keyError "Flight Geography", []) := by
  decide

/-- C3 amended: extraction of zero usable layers aborts the run with the
None outcome; partial extraction is non-fatal only when both Flight
Geography and Ground Risk Buffer are among the extracted layers, in
which case the run completes and analyzes the layers present; when
Flight Geography, or Ground Risk Buffer, is missing the run instead
raises KeyError on the corresponding direct subscript. -/
theorem C3_partial_layers {G : Type} (env : GeoEnv G) (cache : GridCache G)
    (doc : List (KMLFeature G)) :
    (extrair_layers_kml env doc layers_kml = [] →
      analyze_population env cache doc = (RunOutcome.noLayers, cache)) ∧
    (extrair_layers_kml env doc layers_kml ≠ [] →
      List.lookup "Flight Geography"
        (extrair_layers_kml env doc layers_kml) = none →
      (analyze_population env cache doc).1 =
        RunOutcome.keyError "Flight Geography") ∧
    (∀ fg, List.lookup "Flight Geography"
        (extrair_layers_kml env doc layers_kml) = some fg →
      List.lookup "Ground Risk Buffer"
        (extrair_layers_kml env doc layers_kml) = none →
      (analyze_population env cache doc).1 =
        RunOutcome.keyError "Ground Risk Buffer") ∧
    (∀ fg grb, List.lookup "Flight Geography"
        (extrair_layers_kml env doc layers_kml) = some fg →
      List.lookup "Ground Risk Buffer"
        (extrair_layers_kml env doc layers_kml) = some grb →
      ∃ results cache2,
        analyze_population env cache doc = (RunOutcome.ok results, cache2)) := by
  refine ⟨analyze_noLayers env cache doc, ?_, ?_, ?_⟩
  · intro hne hfg
    rw [analyze_keyError_fg env cache doc hne hfg]
  · intro fg hfg hgrb
    rw [analyze_keyError_grb env cache doc fg hfg hgrb]
  · intro fg grb hfg hgrb
    rcases hadj : List.lookup "Adjacent Area"
        (extrair_layers_kml env doc layers_kml) with _ | adj
    · exact ⟨_, _, analyze_ok_no_adj env cache doc fg grb hfg hgrb hadj⟩
    · exact ⟨_, _, analyze_ok_full env cache doc fg grb adj hfg hgrb hadj⟩

/-- Witness for C3: with Flight Geography and Ground Risk Buffer both
extracted, the run completes with a results dictionary. -/
theorem C3_witness :
    ∃ results cache2,
      analyze_population envGeo [] docFull = (RunOutcome.ok results, cache2) :=
  (C3_partial_layers envGeo [] docFull).2.2.2 someG someG (by decide) (by decide)

/-- C5 counterexample: with Ground Risk Buffer absent (Flight Geography
and Adjacent Area present) the run raises KeyError instead of skipping
the Adjacent Area analysis and analyzing the other layers. -/
theorem C5_counterexample :
    analyze_population envGeo [] docC5 =
      (RunOutcome.keyError "Ground Risk Buffer", []) := by
  decide

/-- C5 amended: when Flight Geography, Ground Risk Buffer and Adjacent
Area are all extracted, the geometry analyzed for the Adjacent Area
layer is the geometric difference of the Adjacent Area polygon and the
Ground Risk Buffer polygon; when Adjacent Area is absent the Adjacent
Area analysis is skipped and the other layers are analyzed without
error; but when Ground Risk Buffer is absent the run raises KeyError
on the direct Ground Risk Buffer subscript rather than merely skipping
the Adjacent Area step. -/
theorem C5_adjacent_ring {G : Type} (env : GeoEnv G) (cache : GridCache G)
    (doc : List (KMLFeature G)) :
    (∀ fg grb adj, List.lookup "Flight Geography"
        (extrair_layers_kml env doc layers_kml) = some fg →
      List.lookup "Ground Risk Buffer"
        (extrair_layers_kml env doc layers_kml) = some grb →
      List.lookup "Adjacent Area"
        (extrair_layers_kml env doc layers_kml) = some adj →
      analyze_population env cache doc =
        (RunOutcome.ok
          (entradas "Flight Geography"
            (processar_todas_grades env cache fg).1 ++
            entradas "Ground Risk Buffer"
              (processar_todas_grades env
                (processar_todas_grades env cache fg).2 grb).1 ++
            entradas "Adjacent Area"
              (processar_todas_grades env
                (processar_todas_grades env
                  (processar_todas_grades env cache fg).2 grb).2
                (env.difference adj grb)).1),
          (processar_todas_grades env
            (processar_todas_grades env
              (processar_todas_grades env cache fg).2 grb).2
            (env.difference adj grb)).2)) ∧
    (∀ fg grb, List.lookup "Flight Geography"
        (extrair_layers_kml env doc layers_kml) = some fg →
      List.lookup "Ground Risk Buffer"
        (extrair_layers_kml env doc layers_kml) = some grb →
      List.lookup "Adjacent Area"
        (extrair_layers_kml env doc layers_kml) = none →
      analyze_population env cache doc =
        (RunOutcome.ok
          (entradas "Flight Geography"
            (processar_todas_grades env cache fg).1 ++
            entradas "Ground Risk Buffer"
              (processar_todas_grades env
                (processar_todas_grades env cache fg).2 grb).1),
          (processar_todas_grades env
            (processar_todas_grades env cache fg).2 grb).2)) ∧
    (∀ fg, List.lookup "Flight Geography"
        (extrair_layers_kml env doc layers_kml) = some fg →
      List.lookup "Ground Risk Buffer"
        (extrair_layers_kml env doc layers_kml) = none →
      analyze_population env cache doc =
        (RunOutcome.keyError "Ground Risk Buffer",
          (processar_todas_grades env cache fg).2)) := by
  refine ⟨?_, ?_, ?_⟩
  · intro fg grb adj hfg hgrb hadj
    exact analyze_ok_full env cache doc fg grb adj hfg hgrb hadj
  · intro fg grb hfg hgrb hadj
    exact analyze_ok_no_adj env cache doc fg grb hfg hgrb hadj
  · intro fg hfg hgrb
    exact analyze_keyError_grb env cache doc fg hfg hgrb

/-- Witness for C5: all three layers present; the Adjacent Area entry is
computed on the difference geometry. -/
theorem C5_witness :
    analyze_population envGeo [] docFull =
      (RunOutcome.ok
        (entradas "Flight Geography"
          (processar_todas_grades envGeo [] someG).1 ++
          entradas "Ground Risk Buffer"
            (processar_todas_grades envGeo
              (processar_todas_grades envGeo [] someG).2 someG).1 ++
          entradas "Adjacent Area"
            (processar_todas_grades envGeo
              (processar_todas_grades envGeo
                (processar_todas_grades envGeo [] someG).2 someG).2
              (envGeo.difference someG someG)).1),
        (processar_todas_grades envGeo
          (processar_todas_grades envGeo
            (processar_todas_grades envGeo [] someG).2 someG).2
          (envGeo.difference someG someG)).2) :=
  (C5_adjacent_ring envGeo [] docFull).1 someG someG someG
    (by decide) (by decide) (by decide)

/-- Every entry produced by one layer carries that layer name as key. -/
theorem entradas_key {nm : String} {s : Option Stats} {k : String} {v : Stats}
    (h : (k, v) ∈ entradas nm s) : k = nm := by
  rcases s with _ | s
  · simp [entradas] at h
  · simp only [entradas, List.mem_singleton] at h
    exact congrArg Prod.fst h

/-- A lookup in a list whose keys all differ from the key is none. -/
theorem lookup_none_of_keys {l : List (String × Stats)} {k : String}
    (h : ∀ p ∈ l, p.1 ≠ k) : List.lookup k l = none := by
  induction l with
  | nil => rfl
  | cons a t ih =>
    rw [List.lookup_cons]
    have ha : (k == a.1) = false := by
      rcases a with ⟨a1, a2⟩
      have := h (a1, a2) (List.mem_cons_self _ _)
      simp only [ne_eq] at this
      exact beq_eq_false_iff_ne.mpr (fun hk => this hk.symm)
    rcases a with ⟨a1, a2⟩
    simp only [ha]
    exact ih (fun p hp => h p (List.mem_cons_of_mem _ hp))

/-- C9: the results mapping of a completed run contains at most the keys
Flight Geography, Ground Risk Buffer and Adjacent Area, and never a
Contingency Volume entry, even when that layer is present in the
document. -/
theorem C9_result_keys {G : Type} (env : GeoEnv G) (cache : GridCache G)
    (doc : List (KMLFeature G)) :
    ∀ results cache2,
      analyze_population env cache doc = (RunOutcome.ok results, cache2) →
      (∀ k s, (k, s) ∈ results →
        k ∈ ["Flight Geography", "Ground Risk Buffer", "Adjacent Area"]) ∧
      List.lookup "Contingency Volume" results = none := by
  intro results cache2 hrun
  have hkeys : ∀ k s, (k, s) ∈ results →
      k ∈ ["Flight Geography", "Ground Risk Buffer", "Adjacent Area"] := by
    by_cases hempty : extrair_layers_kml env doc layers_kml = []
    · rw [analyze_noLayers env cache doc hempty] at hrun
      simp at hrun
    · rcases hfg : List.lookup "Flight Geography"
          (extrair_layers_kml env doc layers_kml) with _ | fg
      · rw [analyze_keyError_fg env cache doc hempty hfg] at hrun
        simp at hrun
      · rcases hgrb : List.lookup "Ground Risk Buffer"
            (extrair_layers_kml env doc layers_kml) with _ | grb
        · rw [analyze_keyError_grb env cache doc fg hfg hgrb] at hrun
          simp at hrun
        · rcases hadj : List.lookup "Adjacent Area"
              (extrair_layers_kml env doc layers_kml) with _ | adj
          · rw [analyze_ok_no_adj env cache doc fg grb hfg hgrb hadj] at hrun
            rw [Prod.mk.injEq] at hrun
            obtain ⟨hok, _⟩ := hrun
            have hres := RunOutcome.ok.inj hok
            intro k s hk
            rw [← hres] at hk
            rcases List.mem_append.mp hk with h | h
            · simp [entradas_key h]
            · simp [entradas_key h]
          · rw [analyze_ok_full env cache doc fg grb adj hfg hgrb hadj] at hrun
            rw [Prod.mk.injEq] at hrun
            obtain ⟨hok, _⟩ := hrun
            have hres := RunOutcome.ok.inj hok
            intro k s hk
            rw [← hres] at hk
            rcases List.mem_append.mp hk with h | h
            · rcases List.mem_append.mp h with h2 | h2
              · simp [entradas_key h2]
              · simp [entradas_key h2]
            · simp [entradas_key h]
  refine ⟨hkeys, ?_⟩
  apply lookup_none_of_keys
  intro p hp
  have := hkeys p.1 p.2 hp
  intro hcv
  rw [hcv] at this
  simp at this

/-- Witness for C9: a document containing all four layers, including
Contingency Volume, yields no Contingency Volume entry. -/
theorem C9_witness :
    (∀ k s, (k, s) ∈ ([] : List (String × Stats)) →
      k ∈ ["Flight Geography", "Ground Risk Buffer", "Adjacent Area"]) ∧
    List.lookup "Contingency Volume" ([] : List (String × Stats)) = none :=
  C9_result_keys envGeo [] docFull [] [] (by decide)

/-!
Claim C6.
-/

/-- Loading one grade leaves the cache entries of other grades
unchanged. -/
theorem carregar_preserves_other {G : Type} (env : GeoEnv G)
    (cache : GridCache G) (gid k : Nat) (hk : k ≠ gid) :
    List.lookup k ((carregar_grid_ibge env cache gid true).2.1) =
      List.lookup k cache := by
  unfold carregar_grid_ibge
  rcases hl : List.lookup gid cache with _ | d
  · rcases ht : env.tiles gid with _ | dados
    · simp [ht]
    · have hbeq : (k == gid) = false := beq_eq_false_iff_ne.mpr hk
      simp [ht, List.lookup_cons, hbeq]
  · simp

/-- The tile returned for a grade depends only on that grade entry of
the cache. -/
theorem tileData_congr {G : Type} (env : GeoEnv G)
    {cache cache' : GridCache G} (gid : Nat)
    (h : List.lookup gid cache' = List.lookup gid cache) :
    tileData env cache' gid = tileData env cache gid := by
  unfold tileData carregar_grid_ibge
  rw [h]
  rcases List.lookup gid cache with _ | d
  · rcases env.tiles gid with _ | dados <;> simp
  · simp

/-- On a duplicate-free grade list the collection loop computes, frame
by frame, the filtered tile of each grade as loaded from the starting
cache: later loads cannot shadow earlier grades. -/
theorem coletar_fst_filterMap {G : Type} (env : GeoEnv G) (area_geom : G) :
    ∀ (gids : List Nat) (cache cache' : GridCache G),
      gids.Nodup →
      (∀ g ∈ gids, List.lookup g cache' = List.lookup g cache) →
      (coletar_dados env area_geom gids cache').1 =
        gids.filterMap (fun gid =>
          match tileData env cache gid with
          | none => none
          | some grid =>
            if (filtrar_celulas env grid area_geom).isEmpty then none
            else some (filtrar_celulas env grid area_geom)) := by
  intro gids
  induction gids with
  | nil => intro cache cache' _ _; rfl
  | cons gid rest ih =>
    intro cache cache' hnd hagree
    have hgid : List.lookup gid cache' = List.lookup gid cache :=
      hagree gid (List.mem_cons_self _ _)
    have htd : (carregar_grid_ibge env cache' gid true).1.1 =
        tileData env cache gid :=
      tileData_congr env gid hgid
    have hrest_agree : ∀ g ∈ rest,
        List.lookup g ((carregar_grid_ibge env cache' gid true).2.1) =
          List.lookup g cache := by
      intro g hg
      have hne : g ≠ gid := by
        intro he
        subst he
        exact (List.nodup_cons.mp hnd).1 hg
      rw [carregar_preserves_other env cache' gid g hne]
      exact hagree g (List.mem_cons_of_mem _ hg)
    have hndrest := (List.nodup_cons.mp hnd).2
    simp only [coletar_dados, List.filterMap_cons]
    rcases ht : tileData env cache gid with _ | grid
    · rw [ht] at htd
      rw [htd]
      simp only []
      exact ih cache _ hndrest hrest_agree
    · rw [ht] at htd
      rw [htd]
      simp only []
      by_cases hemp : (filtrar_celulas env grid area_geom).isEmpty
      · rw [if_pos hemp, if_pos hemp]
        exact ih cache _ hndrest hrest_agree
      · rw [if_neg hemp, if_neg hemp]
        simp only []
        rw [ih cache _ hndrest hrest_agree]

/-- The two-stage filter keeps a sublist of the tile cells. -/
theorem filtrar_sublist {G : Type} (env : GeoEnv G) (grid : List (GridCell G))
    (area_geom : G) :
    (filtrar_celulas env grid area_geom).Sublist grid := by
  unfold filtrar_celulas
  by_cases h : (grid.filter
      (fun c => (env.bounds c.geom).overlap (env.bounds area_geom))).isEmpty
  · rw [if_pos h]
    exact List.nil_sublist grid
  · rw [if_neg h]
    exact (List.filter_sublist _).trans (List.filter_sublist _)

/-- The combined cell list is a sublist of the concatenation of the
tile data of the relevant grades. -/
theorem flatten_filterMap_sublist {G : Type} (env : GeoEnv G)
    (cache : GridCache G) (area_geom : G) :
    ∀ gids : List Nat,
      ((gids.filterMap (fun gid =>
          match tileData env cache gid with
          | none => none
          | some grid =>
            if (filtrar_celulas env grid area_geom).isEmpty then none
            else some (filtrar_celulas env grid area_geom))).flatten).Sublist
        ((gids.map (fun gid => (tileData env cache gid).getD [])).flatten) := by
  intro gids
  induction gids with
  | nil => exact List.Sublist.refl _
  | cons gid rest ih =>
    rw [List.filterMap_cons, List.map_cons, List.flatten_cons]
    rcases ht : tileData env cache gid with _ | grid
    · simp only [Option.getD_none, List.nil_append]
      exact ih
    · simp only [Option.getD_some]
      by_cases hemp : (filtrar_celulas env grid area_geom).isEmpty
      · rw [if_pos hemp]
        exact ih.trans (List.sublist_append_right _ _)
      · rw [if_neg hemp]
        rw [List.flatten_cons]
        exact List.Sublist.append (filtrar_sublist env grid area_geom) ih

/-- The two-stage filter of an empty tile is empty. -/
theorem filtrar_nil {G : Type} (env : GeoEnv G) (area_geom : G) :
    filtrar_celulas env ([] : List (GridCell G)) area_geom = [] := rfl

/-- The population total of the combined cells decomposes as the sum of
the per-grade filtered totals. -/
theorem sum_filterMap_totals {G : Type} (env : GeoEnv G) (cache : GridCache G)
    (area_geom : G) :
    ∀ gids : List Nat,
      (((gids.filterMap (fun gid =>
          match tileData env cache gid with
          | none => none
          | some grid =>
            if (filtrar_celulas env grid area_geom).isEmpty then none
            else some (filtrar_celulas env grid area_geom))).flatten).map
        GridCell.total).sum =
      (gids.map (fun gid =>
        ((filtrar_celulas env ((tileData env cache gid).getD [])
          area_geom).map GridCell.total).sum)).sum := by
  intro gids
  induction gids with
  | nil => rfl
  | cons gid rest ih =>
    rw [List.filterMap_cons, List.map_cons, List.sum_cons]
    rcases ht : tileData env cache gid with _ | grid
    · simp only [Option.getD_none, filtrar_nil, List.map_nil, List.sum_nil,
        zero_add]
      exact ih
    · simp only [Option.getD_some]
      by_cases hemp : (filtrar_celulas env grid area_geom).isEmpty
      · rw [if_pos hemp, List.isEmpty_iff.mp hemp]
        simp only [List.map_nil, List.sum_nil, zero_add]
        exact ih
      · rw [if_neg hemp, List.flatten_cons, List.map_append, List.sum_append, ih]

/-- C6: the relevant grade list carries no duplicate identifiers (the
unique step of identificar_grades_relevantes), the combined cell list
of a run contains each cell record at most once provided the tile data
of the relevant grades do not duplicate cell records across tiles (the
data-model guarantee for shared tile boundaries), and the accumulated
population total is the sum over the distinct relevant grades of the
per-tile totals restricted to the intersecting cells, each tile counted
exactly once. -/
theorem C6_no_double_count {G : Type} (env : GeoEnv G) (cache : GridCache G)
    (area_geom : G)
    (hnodup : (((identificar_grades_relevantes env area_geom).map
      (fun gid => (tileData env cache gid).getD [])).flatten).Nodup) :
    (identificar_grades_relevantes env area_geom).Nodup ∧
    (dadosCombinados env cache area_geom).Nodup ∧
    (∀ s cache2, processar_todas_grades env cache area_geom = (some s, cache2) →
      s.total_pessoas = ((identificar_grades_relevantes env area_geom).map
        (fun gid => ((filtrar_celulas env ((tileData env cache gid).getD [])
          area_geom).map GridCell.total).sum)).sum) := by
  have hgradesnd : (identificar_grades_relevantes env area_geom).Nodup := by
    unfold identificar_grades_relevantes
    rcases env.quadrants with _ | idx
    · exact List.nodup_nil
    · simp only []
      split
      next => exact List.nodup_nil
      next => exact (List.mergeSort_perm _ _).nodup_iff.mpr (List.nodup_dedup _)
  have hcol := coletar_fst_filterMap env area_geom
    (identificar_grades_relevantes env area_geom) cache cache hgradesnd
    (fun _ _ => rfl)
  have hcomb : dadosCombinados env cache area_geom =
      ((identificar_grades_relevantes env area_geom).filterMap (fun gid =>
        match tileData env cache gid with
        | none => none
        | some grid =>
          if (filtrar_celulas env grid area_geom).isEmpty then none
          else some (filtrar_celulas env grid area_geom))).flatten := by
    unfold dadosCombinados
    rw [hcol]
  refine ⟨hgradesnd, ?_, ?_⟩
  · rw [hcomb]
    exact List.Nodup.sublist
      (flatten_filterMap_sublist env cache area_geom _) hnodup
  · intro s cache2 hrun
    obtain ⟨hne, hs⟩ := processar_eq_some env cache area_geom s cache2 hrun
    have hdne : dados_area_cells env (dadosCombinados env cache area_geom) ≠ [] := by
      intro hnil
      apply hne
      rcases hd : dadosCombinados env cache area_geom with _ | ⟨a, t⟩
      · rfl
      · rw [hd] at hnil
        simp [dados_area_cells] at hnil
    have hcalc := calcular_estatisticas_some_eq env
      (dados_area_cells env (dadosCombinados env cache area_geom)) area_geom hdne
    have htot : s.total_pessoas =
        ((dados_area_cells env (dadosCombinados env cache area_geom)).map
          StatCell.total).sum := by
      rw [hs, hcalc]
    have hmaps : ((dados_area_cells env
        (dadosCombinados env cache area_geom)).map StatCell.total) =
        (dadosCombinados env cache area_geom).map GridCell.total := by
      unfold dados_area_cells
      rw [List.map_map]
      rfl
    rw [htot, hmaps, hcomb]
    exact sum_filterMap_totals env cache area_geom _

/-- The relevant grades of the two-tile scenario. -/
theorem identificarW6_eq : identificar_grades_relevantes envW6 polyW6 = [1, 2] := by
  have hq : envW6.quadrants =
      some [(1, [{ xmin := 0, ymin := 0, xmax := 1000, ymax := 1000 }]),
            (2, [{ xmin := 1000, ymin := 0, xmax := 2000, ymax := 1000 }])] := rfl
  have hi : envW6.intersects = intersectsG := rfl
  simp only [identificar_grades_relevantes, hq, hi]
  norm_num [intersectsG, boundsG, Box.overlap, polyW6, List.filter,
    List.dedup, List.mergeSort]

/-- The collection loop of the two-tile scenario. -/
theorem coletarW6_eq :
    coletar_dados envW6 polyW6 [1, 2] [] =
      ([[cellA], [cellB]], [(2, [cellB]), (1, [cellA])]) := by
  decide

/-- The run of the two-tile scenario: both cells counted once, total
100, area 1 square km, mean 100, maximum density 70. -/
theorem processarW6_eq :
    processar_todas_grades envW6 [] polyW6 =
      (some { total_pessoas := 100, area_km2 := 1, densidade_media := 100,
              densidade_maxima := 70 }, [(2, [cellB]), (1, [cellA])]) := by
  have hp : envW6.projArea = areaG := rfl
  simp only [processar_todas_grades, identificarW6_eq, coletarW6_eq]
  norm_num [dados_area_cells, calcular_estatisticas, listMax, hp, areaG,
    boxArea, cellA, cellB, polyW6]

/-- Witness for C6 on the polygon spanning two adjacent tiles: no
duplicate grades, no duplicate cells, and the total 100 equals the sum
30 plus 70 of the per-tile totals. -/
theorem C6_witness :
    (identificar_grades_relevantes envW6 polyW6).Nodup ∧
    (dadosCombinados envW6 [] polyW6).Nodup ∧
    ({ total_pessoas := 100, area_km2 := 1, densidade_media := 100,
       densidade_maxima := 70 } : Stats).total_pessoas =
      ((identificar_grades_relevantes envW6 polyW6).map
        (fun gid => ((filtrar_celulas envW6 ((tileData envW6 [] gid).getD [])
          polyW6).map GridCell.total).sum)).sum := by
  have hnodup : (((identificar_grades_relevantes envW6 polyW6).map
      (fun gid => (tileData envW6 [] gid).getD [])).flatten).Nodup := by
    rw [identificarW6_eq]
    decide
  have h := C6_no_double_count envW6 [] polyW6 hnodup
  exact ⟨h.1, h.2.1, h.2.2 _ _ processarW6_eq⟩

end PopAssess

